import Mathlib

/-!
Verification of the phishing-predictor pipeline (`app.py`).

The source is shallowly embedded: Python strings become `String`/`List Char`,
Python floats become `ℚ` (the arithmetic appearing in the code — sums, halving,
comparison against 0.5 — is exact on the values involved), Python dicts of
features become association lists, and fallible network calls are parameterized
by an explicit environment value of type `Except Unit α` (`.ok` = the call
returned, `.error` = the call raised).
-/

namespace Phishing

/-! ## Python string primitives -/

/-- Python `str.count(c)` for a single character: number of occurrences. -/
def pyCount (s : String) (c : Char) : Nat := s.data.count c

/-- Python `str.lower()` (ASCII case fold suffices for the characters used). -/
def pyLower (s : String) : List Char := s.data.map Char.toLower

/-- Python `sub in s` substring test, on character lists. -/
def isSubstr (pat : List Char) (s : List Char) : Bool :=
  match s with
  | [] => pat.isEmpty
  | _ :: t => pat.isPrefixOf s || isSubstr pat t

/-- Python `sub in s` with a string pattern. -/
def containsStr (pat : String) (l : List Char) : Bool := isSubstr pat.data l

/-- Python `hostname.replace('.', '')`: the hostname with every dot removed. -/
def removeDots (s : String) : List Char := s.data.filter (fun c => c ≠ '.')

/-- Python `str.isdigit()` restricted to ASCII decimal digits: true iff the
string is non-empty and every character is a decimal digit. -/
def pyIsdigit (l : List Char) : Bool := !l.isEmpty && l.all Char.isDigit

/-! ## URL normalisation (`urlparse` + scheme prepending)

Both extractors and the request handler run
`urlparse(url if url.startswith(("http://", "https://")) else "http://" + url)`
and read `.hostname or ""`.  `urlparse`'s hostname for an `http(s)://` URL is:
the netloc (text after `"//"` up to the first `/`, `?` or `#`), with any
user-info up to the last `@` stripped, then either the bracketed text after the
first `[` up to `]`, or the text before the first `:`, lower-cased. -/

/-- Python `url.startswith(("http://", "https://"))`. -/
def startsWithScheme (url : String) : Bool :=
  "http://".data.isPrefixOf url.data || "https://".data.isPrefixOf url.data

/-- The string actually parsed: the input, with `"http://"` prepended when no
recognised scheme is present. -/
def ensureScheme (url : String) : String :=
  if startsWithScheme url then url else "http://" ++ url

/-- Characters after the scheme prefix of a string that starts with
`http://` or `https://`. -/
def afterScheme (s : String) : List Char :=
  if "https://".data.isPrefixOf s.data then s.data.drop 8 else s.data.drop 7

/-- Characters after the first occurrence of `c` (empty if `c` is absent). -/
def afterFirst (c : Char) (l : List Char) : List Char :=
  (l.dropWhile (fun x => x ≠ c)).drop 1

/-- Characters after the last occurrence of `c` (the whole list if absent):
Python `l.rpartition(c)[2]`. -/
def afterLast (c : Char) (l : List Char) : List Char :=
  (l.reverse.takeWhile (fun x => x ≠ c)).reverse

/-- `parsed.hostname or ""` of the scheme-completed URL. -/
def parsedHostname (url : String) : String :=
  let s := ensureScheme url
  let netloc := (afterScheme s).takeWhile
    (fun c => c ≠ '/' && c ≠ '?' && c ≠ '#')
  let hostinfo := afterLast '@' netloc
  let host :=
    if hostinfo.contains '[' then
      (afterFirst '[' hostinfo).takeWhile (fun c => c ≠ ']')
    else
      hostinfo.takeWhile (fun c => c ≠ ':')
  String.mk (host.map Char.toLower)

/-! ## Feature maps and vector alignment -/

/-- A Python feature dict: keys in insertion order, numeric values. -/
abbrev FeatureMap := List (String × ℚ)

/-- Dict lookup: `features[k]` as an `Option`. -/
def FeatureMap.get (m : FeatureMap) (k : String) : Option ℚ :=
  (m.find? (fun p => p.1 = k)).map (fun p => p.2)

/-- The alignment loop shared by both extractors:
`for col in cols: row.append(float(features.get(col, 0)))`. -/
def alignRow (features : FeatureMap) (cols : List String) : List ℚ :=
  cols.map (fun c => (features.get c).getD 0)

/-- 0/1 indicator, `1 if b else 0`. -/
def b2q (b : Bool) : ℚ := if b then 1 else 0

/-! ## Content extractor (`extract_content_features`) -/

/-- The URL-shortener substrings tested by `url_isshorted`. -/
def shortenerList : List String := ["bit.ly", "t.co", "tinyurl", "goo.gl", "ow.ly"]

/-- The `features` dict built by `extract_content_features` (keys in insertion
order; `url_len` is assigned twice with the same value, so it appears once). -/
def extract_content_map (url : String) : FeatureMap :=
  let hostname := parsedHostname url
  let lurl := pyLower url
  [ ("url_len", (url.length : ℚ)),
    ("url_has_login", b2q (containsStr "login" lurl)),
    ("url_has_client", b2q (containsStr "client" lurl)),
    ("url_has_server", b2q (containsStr "server" lurl)),
    ("url_has_admin", b2q (containsStr "admin" lurl)),
    ("url_has_ip", b2q (pyIsdigit (removeDots hostname))),
    ("url_isshorted", b2q (shortenerList.any (fun s => containsStr s (pyLower hostname)))),
    ("url_entropy", 0) ]

/-- `extract_content_features`: the dict aligned to the content schema. -/
def extract_content_features (url : String) (X_content_cols : List String) : List ℚ :=
  alignRow (extract_content_map url) X_content_cols

/-! ## Structural extractor (`extract_structural_features`)

(The source has a stray extra indent on the `row = []` line; it is read at
function level, matching the content extractor's identical epilogue.) -/

/-- The `features` dict built by `extract_structural_features` (keys in
insertion order). -/
def extract_struct_map (url : String) : FeatureMap :=
  let hostname := parsedHostname url
  [ ("length_url", (url.length : ℚ)),
    ("length_hostname", (hostname.length : ℚ)),
    ("ip", b2q (pyIsdigit (removeDots hostname))),
    ("nb_dots", (pyCount url '.' : ℚ)),
    ("nb_hyphens", (pyCount url '-' : ℚ)),
    ("nb_at", (pyCount url '@' : ℚ)),
    ("nb_qm", (pyCount url '?' : ℚ)),
    ("nb_and", (pyCount url '&' : ℚ)),
    ("nb_or", (pyCount url '|' : ℚ)),
    ("nb_eq", (pyCount url '=' : ℚ)),
    ("nb_underscore", (pyCount url '_' : ℚ)),
    ("nb_percent", (pyCount url '%' : ℚ)),
    ("nb_slash", (pyCount url '/' : ℚ)) ]

/-- `extract_structural_features`: the dict aligned to the structural schema. -/
def extract_structural_features (url : String) (X_struct_cols : List String) : List ℚ :=
  alignRow (extract_struct_map url) X_struct_cols

/-! ## Ensemble combiner (`ensemble_predict`)

The two component probabilities come from the opaque pickled models; the
combiner itself is a pure function of them. -/

/-- `ensemble_predict`'s combination step: returns
`(label, avg_prob, prob_content, prob_struct)`. -/
def ensemble_predict (prob_content prob_struct : ℚ) : String × ℚ × ℚ × ℚ :=
  (if (prob_content + prob_struct) / 2 > 1/2 then "Phishing" else "Legitimate",
   (prob_content + prob_struct) / 2, prob_content, prob_struct)

/-! ## Model scorer

The two classifiers are opaque serialized artifacts loaded with `joblib`;
`ensemble_predict` hands each one an aligned vector and reads back a
probability. -/

/-- An opaque trained classifier: an expected input width and a scoring
function (the spec's `predict_probability` contract). -/
structure Model where
  width : Nat
  score : List ℚ → ℚ

/-- The per-request scoring failure of the Model Scorer contract. -/
inductive ScoreError where
  | shapeMismatch : ScoreError
  deriving DecidableEq

/-- Modelled from the spec: the trained classifiers (`model_content.pkl`,
`model_structural.pkl`) are opaque pickled artifacts, not source under `src/`,
so the width check lives inside them.  The spec's Model Scorer contract:
`score(vector) -> probability in [0,1]`, and a vector whose length mismatches
the model's expected input width must fail with a ShapeMismatch error rather
than be silently truncated or padded. -/
def Model.scoreChecked (m : Model) (v : List ℚ) : Except ScoreError ℚ :=
  if v.length = m.width then .ok (m.score v) else .error .shapeMismatch

/-- `ensemble_predict`'s full body over the spec-modelled scorer: extract both
vectors, score each, then combine.  A scoring failure is a per-request
`Except` error value, never a crash of the (total) function. -/
def ensemble_predict_checked (model_content model_struct : Model)
    (X_content_cols X_struct_cols : List String) (url : String) :
    Except ScoreError (String × ℚ × ℚ × ℚ) := do
  let prob_content ← model_content.scoreChecked (extract_content_features url X_content_cols)
  let prob_struct ← model_struct.scoreChecked (extract_structural_features url X_struct_cols)
  pure (ensemble_predict prob_content prob_struct)

/-! ## External signal collectors

Each collector performs one network call; the call's outcome is passed in
explicitly as an `Except Unit α` environment value (`.error` = the Python call
raised). -/

/-- What the geolocation HTTP call produced: a status code and the optional
`country` field of the JSON body. -/
structure GeoResp where
  status : Nat
  country : Option String

/-- What the reputation HTTP call produced: a status code and the raw body. -/
structure RepResp where
  status : Nat
  body : String

/-- What `whois(domain).creation_date` produced: Python `None`, a single
datetime, or a list of optional datetimes.  Datetimes are measured in days, so
Python's `(utcnow() - creation).days` is integer subtraction here. -/
inductive PyCreation where
  | noneDate : PyCreation
  | date : Int → PyCreation
  | dateList : List (Option Int) → PyCreation

/-- `domain_exists`: 1 if the domain resolves, otherwise 0; empty domain and
any resolution failure give 0. -/
def domain_exists (domain : String) (resolve : Except Unit String) : Nat :=
  if domain = "" then 0
  else
    match resolve with
    | .ok _ => 1
    | .error _ => 0

/-- `dns_a_record`: the resolved address, or `None` on any failure. -/
def dns_a_record (resolve : Except Unit String) : Option String :=
  match resolve with
  | .ok ip => some ip
  | .error _ => none

/-- `ssl_check`: `"Valid SSL"` on a successful handshake, `"No/Invalid SSL"`
on any failure, `"No hostname"` for an empty hostname. -/
def ssl_check (hostname : String) (handshake : Except Unit Unit) : String :=
  if hostname = "" then "No hostname"
  else
    match handshake with
    | .ok _ => "Valid SSL"
    | .error _ => "No/Invalid SSL"

/-- `whois_age_days`: days since domain creation clamped to non-negative, or
`None` when the whois dependency is unavailable, the domain is empty, the
lookup raises, or no creation date comes back; a list-typed creation date is
resolved to its first entry (an empty list raises `IndexError` inside the
`try`, which the code absorbs to `None`). -/
def whois_age_days (whoisAvailable : Bool) (domain : String)
    (lookup : Except Unit PyCreation) (now : Int) : Option Int :=
  if whoisAvailable = false ∨ domain = "" then none
  else
    match lookup with
    | .error _ => none
    | .ok .noneDate => none
    | .ok (.date d) => some (max (now - d) 0)
    | .ok (.dateList []) => none
    | .ok (.dateList (Option.none :: _)) => none
    | .ok (.dateList (some d :: _)) => some (max (now - d) 0)

/-- `geo_country`: the `country` field of a 200 response, `"Unknown"` for an
empty input, a non-200 status, a body without the field, or any failure. -/
def geo_country (ip : String) (response : Except Unit GeoResp) : String :=
  if ip = "" then "Unknown"
  else
    match response with
    | .ok r => if r.status = 200 then r.country.getD "Unknown" else "Unknown"
    | .error _ => "Unknown"

/-- `reputation_check_urlhaus`: substring heuristics over the response body;
`"Unknown"` for an empty hostname, a non-200/unrecognised response, or any
failure. -/
def reputation_check_urlhaus (hostname : String) (response : Except Unit RepResp) : String :=
  if hostname = "" then "Unknown"
  else
    match response with
    | .error _ => "Unknown"
    | .ok r =>
      if r.status = 200 && containsStr "query_status" (pyLower r.body) then
        if containsStr "no results" (pyLower r.body) then "Clean" else "⚠ Blacklisted"
      else "Unknown"

/-! ## Request pipeline (the `Check URL` handler) -/

/-- The outcomes of the five network calls made for one request. -/
structure Env where
  resolve : Except Unit String
  handshake : Except Unit Unit
  whoisLookup : Except Unit PyCreation
  geo : Except Unit GeoResp
  reputation : Except Unit RepResp

/-- The external facts displayed with a verdict. -/
structure SignalReport where
  domain_ok : Nat
  dns_ip : Option String
  ssl_status : String
  age_days : Option Int
  country : String
  reputation : String

/-- The handler's collection of external signals:
`country = geo_country(dns_ip) if dns_ip else "Unknown"`. -/
def collect_signals (hostname : String) (whoisAvailable : Bool) (now : Int)
    (env : Env) : SignalReport :=
  let ip := dns_a_record env.resolve
  { domain_ok := domain_exists hostname env.resolve
    dns_ip := ip
    ssl_status := ssl_check hostname env.handshake
    age_days := whois_age_days whoisAvailable hostname env.whoisLookup now
    country :=
      match ip with
      | some s => geo_country s env.geo
      | none => "Unknown"
    reputation := reputation_check_urlhaus hostname env.reputation }

/-- The displayed verdict: final label plus the ensemble numbers. -/
structure FinalVerdict where
  label : String
  avg_prob : ℚ
  p_content : ℚ
  p_struct : ℚ

/-- The handler's override:
`final_label = "Phishing (domain does not resolve)" if domain_ok == 0 else label`,
with `avg_prob`, `p_content`, `p_struct` displayed as returned by
`ensemble_predict`. -/
def compose_verdict (domain_ok : Nat) (ensemble : String × ℚ × ℚ × ℚ) : FinalVerdict :=
  { label := if domain_ok = 0 then "Phishing (domain does not resolve)" else ensemble.1
    avg_prob := ensemble.2.1
    p_content := ensemble.2.2.1
    p_struct := ensemble.2.2.2 }

/-- The handler's phishing test on the final label:
`"phish" in final_label.lower()`. -/
def displaysAsPhishing (label : String) : Bool := containsStr "phish" (pyLower label)

/-- One request: combine the two model probabilities, collect the signals, and
compose the final verdict. -/
def run_pipeline (prob_content prob_struct : ℚ) (hostname : String)
    (whoisAvailable : Bool) (now : Int) (env : Env) : FinalVerdict × SignalReport :=
  let signals := collect_signals hostname whoisAvailable now env
  (compose_verdict signals.domain_ok (ensemble_predict prob_content prob_struct), signals)

/-- An environment in which every network call raises. -/
def envAllFail : Env :=
  { resolve := .error ()
    handshake := .error ()
    whoisLookup := .error ()
    geo := .error ()
    reputation := .error () }

end Phishing

namespace Phishing

/-! ## Theorems -/

/-- C1: the ensemble's aggregate probability is the arithmetic mean of the two
component probabilities, the label is `"Phishing"` iff that mean is strictly
greater than 1/2, and a mean of exactly 1/2 yields `"Legitimate"`. -/
theorem C1_ensemble_mean_threshold (p q : ℚ) :
    (ensemble_predict p q).2.1 = (p + q) / 2 ∧
    ((ensemble_predict p q).1 = "Phishing" ↔ (p + q) / 2 > 1/2) ∧
    ((p + q) / 2 = 1/2 → (ensemble_predict p q).1 = "Legitimate") := by
  refine ⟨rfl, ?_, ?_⟩
  · constructor
    · intro hl
      by_contra hng
      have hleg : (ensemble_predict p q).1 = "Legitimate" := if_neg hng
      rw [hl] at hleg
      exact absurd hleg (by decide)
    · intro hgt
      exact if_pos hgt
  · intro h
    exact if_neg (by rw [h]; exact lt_irrefl _)

/-- Witness for C1 at the boundary: mean exactly 1/2 gives `"Legitimate"`. -/
theorem C1_ensemble_mean_threshold_witness :
    (ensemble_predict (1/2) (1/2)).1 = "Legitimate" :=
  (C1_ensemble_mean_threshold (1/2) (1/2)).2.2 (by norm_num)

/-- Dict lookup on the empty feature map. -/
theorem FeatureMap.get_nil (k : String) : FeatureMap.get [] k = none := rfl

/-- Dict lookup steps through one binding at a time. -/
theorem FeatureMap.get_cons (k : String) (v : ℚ) (t : FeatureMap) (k' : String) :
    FeatureMap.get ((k, v) :: t) k' = if k = k' then some v else FeatureMap.get t k' := by
  by_cases h : k = k'
  · simp [FeatureMap.get, List.find?, h]
  · simp [FeatureMap.get, List.find?, h]

/-- The alignment loop, elementwise: position `i` of the aligned row holds the
feature value of schema column `i`, defaulting to 0. -/
theorem alignRow_get? (m : FeatureMap) (cols : List String) (i : Nat) :
    (alignRow m cols).get? i = (cols.get? i).map (fun c => (m.get c).getD 0) := by
  induction cols generalizing i with
  | nil => rfl
  | cons a t ih =>
    cases i with
    | zero => rfl
    | succ n => exact ih n

/-- C2: for every URL and every schema, both extractors return a vector of
exactly the schema's length, entry `i` is the feature-map value of schema
column `i` (so entries follow schema order), a schema column absent from the
feature map contributes exactly 0 at its position, and feature-map keys
outside the schema do not appear (the vector is determined by per-column
lookups alone). -/
theorem C2_vector_alignment (url : String) (cols : List String) :
    (extract_content_features url cols).length = cols.length ∧
    (extract_structural_features url cols).length = cols.length ∧
    (∀ i : Nat, (extract_content_features url cols).get? i =
      (cols.get? i).map (fun c => ((extract_content_map url).get c).getD 0)) ∧
    (∀ i : Nat, (extract_structural_features url cols).get? i =
      (cols.get? i).map (fun c => ((extract_struct_map url).get c).getD 0)) ∧
    (∀ i c, cols.get? i = some c → (extract_content_map url).get c = none →
      (extract_content_features url cols).get? i = some 0) ∧
    (∀ i c, cols.get? i = some c → (extract_struct_map url).get c = none →
      (extract_structural_features url cols).get? i = some 0) := by
  refine ⟨List.length_map _ _, List.length_map _ _,
    fun i => alignRow_get? _ cols i, fun i => alignRow_get? _ cols i, ?_, ?_⟩
  · intro i c hc hnone
    rw [extract_content_features, alignRow_get? _ cols i, hc]
    simp [hnone]
  · intro i c hc hnone
    rw [extract_structural_features, alignRow_get? _ cols i, hc]
    simp [hnone]

/-- Witness for C2, mirroring the spec's concrete scenario: schema
`["url_len", "nb_dots"]` against the content map (which has no `nb_dots` key)
puts exactly 0 in position 1. -/
theorem C2_vector_alignment_witness :
    (extract_content_features "a" ["url_len", "nb_dots"]).get? 1 = some 0 :=
  (C2_vector_alignment "a" ["url_len", "nb_dots"]).2.2.2.2.1 1 "nb_dots" rfl
    (by simp [extract_content_map, FeatureMap.get_cons, FeatureMap.get_nil])

/-- C7: the content extractor's `url_entropy` feature is the literal constant
0 for every URL, and any schema position asking for `url_entropy` receives 0. -/
theorem C7_entropy_constant_zero (url : String) (cols : List String) :
    (extract_content_map url).get "url_entropy" = some 0 ∧
    (∀ i, cols.get? i = some "url_entropy" →
      (extract_content_features url cols).get? i = some 0) := by
  have hget : (extract_content_map url).get "url_entropy" = some 0 := by
    simp [extract_content_map, FeatureMap.get_cons]
  refine ⟨hget, ?_⟩
  intro i hi
  rw [extract_content_features, alignRow_get? _ cols i, hi]
  simp [hget]

/-- Witness for C7 at a concrete URL and schema. -/
theorem C7_entropy_constant_zero_witness :
    (extract_content_features "http://example.com" ["url_entropy"]).get? 0 = some 0 :=
  (C7_entropy_constant_zero "http://example.com" ["url_entropy"]).2 0 rfl

/-- The code's 0/1 cast of Python `isdigit`, restated against the spec's
wording: 1 exactly when the character list is non-empty and all-digits. -/
theorem b2q_pyIsdigit (l : List Char) :
    b2q (pyIsdigit l) = if l ≠ [] ∧ ∀ c ∈ l, c.isDigit then 1 else 0 := by
  rw [b2q, pyIsdigit]
  by_cases h : l ≠ [] ∧ ∀ c ∈ l, c.isDigit
  · rw [if_pos ?_, if_pos h]
    simp only [Bool.and_eq_true, Bool.not_eq_true', List.all_eq_true]
    exact ⟨by simp [List.isEmpty_iff, h.1], h.2⟩
  · rw [if_neg ?_, if_neg h]
    simp only [Bool.and_eq_true, Bool.not_eq_true', List.all_eq_true, not_and]
    intro hne
    have hl : l ≠ [] := by
      intro hnil
      rw [hnil] at hne
      exact absurd hne (by decide)
    intro hall
    exact h ⟨hl, fun c hc => by simpa using hall c hc⟩

/-- C10: the content extractor's `url_has_ip` and the structural extractor's
`ip` agree for every URL, both are 1 exactly when the parsed hostname with all
dots removed is a non-empty all-digit string (so any digits-and-dots hostname
is flagged, not only dotted quads), and an empty hostname yields 0. -/
theorem C10_ip_indicator (url : String) :
    (extract_content_map url).get "url_has_ip" = (extract_struct_map url).get "ip" ∧
    ((extract_struct_map url).get "ip" =
      some (if removeDots (parsedHostname url) ≠ [] ∧
            (∀ c ∈ removeDots (parsedHostname url), c.isDigit) then 1 else 0)) ∧
    (parsedHostname url = "" → (extract_struct_map url).get "ip" = some 0) := by
  have hget : (extract_struct_map url).get "ip" =
      some (b2q (pyIsdigit (removeDots (parsedHostname url)))) := by
    simp [extract_struct_map, FeatureMap.get_cons]
  have hgetc : (extract_content_map url).get "url_has_ip" =
      some (b2q (pyIsdigit (removeDots (parsedHostname url)))) := by
    simp [extract_content_map, FeatureMap.get_cons]
  refine ⟨hgetc.trans hget.symm, ?_, ?_⟩
  · rw [hget, b2q_pyIsdigit]
  · intro h
    rw [hget, h]
    rfl

/-- Witness for C10: the digits-and-dots hostname `1.2.3.4.5` (not a valid
IPv4 address) is flagged as an IP literal. -/
theorem C10_ip_indicator_witness :
    (extract_struct_map "1.2.3.4.5").get "ip" = some 1 := by
  rw [(C10_ip_indicator "1.2.3.4.5").2.1, if_pos (by decide)]

/-- C3: whenever the domain-resolution signal is 0, the final label is the
override string `"Phishing (domain does not resolve)"` — which the handler
classifies as Phishing — for every pair of model probabilities and every
outcome of the other collectors. -/
theorem C3_nonresolving_forces_phishing (p q : ℚ) (hostname : String)
    (avail : Bool) (now : Int) (env : Env)
    (h : (collect_signals hostname avail now env).domain_ok = 0) :
    (run_pipeline p q hostname avail now env).1.label =
      "Phishing (domain does not resolve)" ∧
    displaysAsPhishing (run_pipeline p q hostname avail now env).1.label = true := by
  have hl : (run_pipeline p q hostname avail now env).1.label =
      "Phishing (domain does not resolve)" := by
    simp [run_pipeline, compose_verdict, h]
  exact ⟨hl, by rw [hl]; decide⟩

/-- Witness for C3: with every network call failing and component
probabilities 0.01 and 0.02 (aggregate 0.015), the label is still the
non-resolving-domain Phishing override. -/
theorem C3_nonresolving_forces_phishing_witness :
    (run_pipeline (1/100) (2/100) "example.com" false 0 envAllFail).1.label =
      "Phishing (domain does not resolve)" :=
  (C3_nonresolving_forces_phishing (1/100) (2/100) "example.com" false 0
    envAllFail rfl).1

/-- C4 (amended): for every URL the structural extractor computes exactly
13 features — total URL length, hostname length, the IP-literal indicator,
and the counts of `.`, `-`, `@`, `?`, `&`, `|`, `=`, `_`, `%`, `/` — and no
`www.`-presence indicator and no word-length statistic. -/
theorem C4_structural_feature_set (url : String) :
    ((extract_struct_map url).map Prod.fst =
      ["length_url", "length_hostname", "ip", "nb_dots", "nb_hyphens", "nb_at",
       "nb_qm", "nb_and", "nb_or", "nb_eq", "nb_underscore", "nb_percent",
       "nb_slash"]) ∧
    (extract_struct_map url).get "length_url" = some (url.length : ℚ) ∧
    (extract_struct_map url).get "length_hostname" =
      some ((parsedHostname url).length : ℚ) ∧
    (extract_struct_map url).get "ip" =
      some (b2q (pyIsdigit (removeDots (parsedHostname url)))) ∧
    (extract_struct_map url).get "nb_dots" = some (pyCount url '.' : ℚ) ∧
    (extract_struct_map url).get "nb_hyphens" = some (pyCount url '-' : ℚ) ∧
    (extract_struct_map url).get "nb_at" = some (pyCount url '@' : ℚ) ∧
    (extract_struct_map url).get "nb_qm" = some (pyCount url '?' : ℚ) ∧
    (extract_struct_map url).get "nb_and" = some (pyCount url '&' : ℚ) ∧
    (extract_struct_map url).get "nb_or" = some (pyCount url '|' : ℚ) ∧
    (extract_struct_map url).get "nb_eq" = some (pyCount url '=' : ℚ) ∧
    (extract_struct_map url).get "nb_underscore" = some (pyCount url '_' : ℚ) ∧
    (extract_struct_map url).get "nb_percent" = some (pyCount url '%' : ℚ) ∧
    (extract_struct_map url).get "nb_slash" = some (pyCount url '/' : ℚ) ∧
    (((extract_struct_map url).map Prod.fst).all
      (fun k => !containsStr "www" k.data && !containsStr "word" k.data &&
                !containsStr "longest" k.data && !containsStr "shortest" k.data)
      = true) := by
  have hkeys : (extract_struct_map url).map Prod.fst =
      ["length_url", "length_hostname", "ip", "nb_dots", "nb_hyphens", "nb_at",
       "nb_qm", "nb_and", "nb_or", "nb_eq", "nb_underscore", "nb_percent",
       "nb_slash"] := rfl
  refine ⟨hkeys, ?_, ?_, ?_, ?_, ?_, ?_, ?_, ?_, ?_, ?_, ?_, ?_, ?_, ?_⟩ <;>
    first
      | (rw [hkeys]; decide)
      | simp [extract_struct_map, FeatureMap.get_cons]

/-- Counterexample for C4 as frozen: on a concrete URL with both a `www.`
hostname and multi-segment path, the structural feature dict holds exactly
the 13 keys below — no `www.`-presence indicator and no longest/shortest
word-length feature is computed. -/
theorem C4_no_www_no_word_stats :
    ((extract_struct_map "http://www.example.com/ab/c").map Prod.fst =
      ["length_url", "length_hostname", "ip", "nb_dots", "nb_hyphens", "nb_at",
       "nb_qm", "nb_and", "nb_or", "nb_eq", "nb_underscore", "nb_percent",
       "nb_slash"]) ∧
    ((((extract_struct_map "http://www.example.com/ab/c").map Prod.fst).all
      (fun k => !containsStr "www" k.data && !containsStr "word" k.data &&
                !containsStr "longest" k.data && !containsStr "shortest" k.data))
      = true) := by
  exact ⟨rfl, by decide⟩

/-- C5: the spec-modelled scorer fails a request whose vector length
disagrees with the model's expected width with a ShapeMismatch error — it
only ever scores a vector of exactly the expected width (no truncation or
padding) — and the ensemble propagates that as a per-request error value. -/
theorem C5_shape_mismatch_rejected (m : Model) (v : List ℚ)
    (model_content model_struct : Model) (cc cs : List String) (url : String) :
    (v.length ≠ m.width → m.scoreChecked v = .error .shapeMismatch) ∧
    (∀ p, m.scoreChecked v = .ok p → v.length = m.width ∧ p = m.score v) ∧
    ((extract_content_features url cc).length ≠ model_content.width →
      ensemble_predict_checked model_content model_struct cc cs url =
        .error .shapeMismatch) := by
  refine ⟨?_, ?_, ?_⟩
  · intro h
    rw [Model.scoreChecked, if_neg h]
  · intro p hp
    by_cases h : v.length = m.width
    · rw [Model.scoreChecked, if_pos h] at hp
      exact ⟨h, (Except.ok.injEq _ _ ▸ hp).symm⟩
    · rw [Model.scoreChecked, if_neg h] at hp
      exact Except.noConfusion hp
  · intro h
    have h1 : model_content.scoreChecked (extract_content_features url cc) =
        .error .shapeMismatch := by
      rw [Model.scoreChecked, if_neg h]
    simp only [ensemble_predict_checked, h1]
    rfl

/-- Witness for C5: a width-2 model rejects a length-1 vector. -/
theorem C5_shape_mismatch_rejected_witness :
    Model.scoreChecked ⟨2, fun _ => 0⟩ [(1 : ℚ)] = .error .shapeMismatch :=
  (C5_shape_mismatch_rejected ⟨2, fun _ => 0⟩ [(1 : ℚ)] ⟨2, fun _ => 0⟩
    ⟨2, fun _ => 0⟩ [] [] "").1 (by decide)

/-- C6: every collector is a total function that maps a raised call to its
defined sentinel (0 / `none` / `"No/Invalid SSL"` / `"Unknown"`); a failing
collector leaves all other report fields untouched; a resolution failure
leaves TLS, age and reputation untouched while geolocation (whose input is
the resolved address) degrades to its own `"Unknown"`; and the ensemble's
aggregate probability never depends on any collector outcome. -/
theorem C6_collectors_absorb_failures (hostname ip : String) (avail : Bool)
    (now : Int) (env : Env) (rH : Except Unit Unit)
    (rW : Except Unit PyCreation) (rG : Except Unit GeoResp)
    (rR : Except Unit RepResp) (p q : ℚ) :
    domain_exists hostname (.error ()) = 0 ∧
    dns_a_record (.error ()) = none ∧
    (hostname ≠ "" → ssl_check hostname (.error ()) = "No/Invalid SSL") ∧
    whois_age_days avail hostname (.error ()) now = none ∧
    geo_country ip (.error ()) = "Unknown" ∧
    reputation_check_urlhaus hostname (.error ()) = "Unknown" ∧
    (collect_signals hostname avail now { env with handshake := rH } =
      { collect_signals hostname avail now env with
          ssl_status := ssl_check hostname rH }) ∧
    (collect_signals hostname avail now { env with whoisLookup := rW } =
      { collect_signals hostname avail now env with
          age_days := whois_age_days avail hostname rW now }) ∧
    (collect_signals hostname avail now { env with geo := rG } =
      { collect_signals hostname avail now env with
          country :=
            (collect_signals hostname avail now { env with geo := rG }).country }) ∧
    (collect_signals hostname avail now { env with reputation := rR } =
      { collect_signals hostname avail now env with
          reputation := reputation_check_urlhaus hostname rR }) ∧
    ((collect_signals hostname avail now { env with resolve := .error () }).ssl_status =
      (collect_signals hostname avail now env).ssl_status ∧
     (collect_signals hostname avail now { env with resolve := .error () }).age_days =
      (collect_signals hostname avail now env).age_days ∧
     (collect_signals hostname avail now { env with resolve := .error () }).reputation =
      (collect_signals hostname avail now env).reputation ∧
     (collect_signals hostname avail now { env with resolve := .error () }).country =
      "Unknown") ∧
    (run_pipeline p q hostname avail now env).1.avg_prob = (p + q) / 2 ∧
    (run_pipeline p q hostname avail now { env with resolve := .error () }).1.avg_prob
      = (p + q) / 2 := by
  refine ⟨?_, rfl, ?_, ?_, ?_, ?_, rfl, rfl, rfl, rfl, ⟨rfl, rfl, rfl, rfl⟩, rfl, rfl⟩
  · unfold domain_exists
    split <;> rfl
  · intro h
    rw [ssl_check, if_neg h]
  · unfold whois_age_days
    split <;> rfl
  · unfold geo_country
    split <;> rfl
  · unfold reputation_check_urlhaus
    split <;> rfl

/-- Witness for C6: a raised TLS handshake on a non-empty hostname degrades
to the `"No/Invalid SSL"` sentinel. -/
theorem C6_collectors_absorb_failures_witness :
    ssl_check "example.com" (.error ()) = "No/Invalid SSL" :=
  (C6_collectors_absorb_failures "example.com" "93.184.216.34" true 0 envAllFail
    (.error ()) (.error ()) (.error ()) (.error ()) 0 0).2.2.1 (by decide)

/-- C8: the verdict composer only ever rewrites the label: the aggregate
probability and both component scores of the final verdict are exactly the
ensemble's, for every domain-resolution outcome — in particular when the
override fires (`domain_ok = 0`). -/
theorem C8_override_is_label_only (p q : ℚ) (dok : Nat) :
    (compose_verdict dok (ensemble_predict p q)).avg_prob =
      (ensemble_predict p q).2.1 ∧
    (compose_verdict dok (ensemble_predict p q)).p_content =
      (ensemble_predict p q).2.2.1 ∧
    (compose_verdict dok (ensemble_predict p q)).p_struct =
      (ensemble_predict p q).2.2.2 ∧
    (compose_verdict 0 (ensemble_predict p q)).avg_prob = (p + q) / 2 ∧
    (compose_verdict 0 (ensemble_predict p q)).p_content = p ∧
    (compose_verdict 0 (ensemble_predict p q)).p_struct = q :=
  ⟨rfl, rfl, rfl, rfl, rfl, rfl⟩

/-- C9: the whois-age collector returns days-since-creation clamped to be
non-negative, takes the first entry of a list-typed creation date, and
returns the unknown sentinel `none` when the dependency is unavailable, the
domain is empty, the lookup raises, or no creation date is returned. -/
theorem C9_whois_age (avail : Bool) (domain : String)
    (lookup : Except Unit PyCreation) (now d : Int) (rest : List (Option Int)) :
    (avail = false → whois_age_days avail domain lookup now = none) ∧
    (domain = "" → whois_age_days avail domain lookup now = none) ∧
    whois_age_days avail domain (.error ()) now = none ∧
    whois_age_days avail domain (.ok .noneDate) now = none ∧
    (avail = true → domain ≠ "" →
      whois_age_days avail domain (.ok (.date d)) now = some (max (now - d) 0)) ∧
    whois_age_days avail domain (.ok (.dateList (some d :: rest))) now =
      whois_age_days avail domain (.ok (.date d)) now ∧
    whois_age_days avail domain (.ok (.dateList (Option.none :: rest))) now = none ∧
    whois_age_days avail domain (.ok (.dateList [])) now = none ∧
    (∀ v, whois_age_days avail domain lookup now = some v → 0 ≤ v) := by
  refine ⟨?_, ?_, ?_, ?_, ?_, ?_, ?_, ?_, ?_⟩
  · intro h
    unfold whois_age_days
    rw [if_pos (Or.inl h)]
  · intro h
    unfold whois_age_days
    rw [if_pos (Or.inr h)]
  · unfold whois_age_days
    split <;> rfl
  · unfold whois_age_days
    split <;> rfl
  · intro h1 h2
    unfold whois_age_days
    rw [if_neg (by simp [h1, h2])]
  · unfold whois_age_days
    split <;> rfl
  · unfold whois_age_days
    split <;> rfl
  · unfold whois_age_days
    split <;> rfl
  · intro v hv
    unfold whois_age_days at hv
    split at hv
    · exact Option.noConfusion hv
    · split at hv <;>
        first
          | exact Option.noConfusion hv
          | (rw [← Option.some_inj.mp hv]; exact le_max_right _ _)

/-- Witness for C9: an available lookup on a non-empty domain returning a
single creation date 100 with `now = 465` gives 365 days. -/
theorem C9_whois_age_witness :
    whois_age_days true "example.com" (.ok (.date 100)) 465 = some 365 := by
  rw [(C9_whois_age true "example.com" (.ok (.date 100)) 465 100 []).2.2.2.2.1
    rfl (by decide)]
  simp [max_def]

end Phishing
